import Mathlib

/-!
Shallow embedding of the Byparr-header service (src/main.py and
src/src/models/requests.py) for checking the natural-language specification.

The browser session (SeleniumBase SB) is the external collaborator; every
observation the handler makes through it is a field of `BrowserEnv`.  The
handler `read_item` is embedded as a pure function of the request, the
browser environment, the clock and the process-wide cookie cache, returning
the response together with the trace observables the claims talk about
(whether a session was opened, what cookies seeded it, the cache after the
request, the number of diagnostic screenshots taken, the number of captcha
click attempts issued).
-/

namespace Byparr

/-- Modelled from the spec: src/utils/consts.py is absent from the sources.
The spec describes the Challenge Title Catalog as a static set of known
interstitial page-title strings used as the detection oracle; we model it as
a concrete finite list with representative members.  All general theorems
depend only on membership, via hypotheses on `isChallenge`. -/
def CHALLENGE_TITLES : List String :=
  ["Just a moment...", "Attention Required! | Cloudflare", "DDoS-Guard"]

/-- Modelled from the spec: the version string consts.VERSION from the absent
src/utils/consts.py; its concrete value is irrelevant to every claim. -/
def VERSION : String := "1.0"

/-- A browser cookie record as returned by sb.get_cookies(); only the name
and value fields are ever consulted by main.py (lines 98-99 and 127-128). -/
structure Cookie where
  name : String
  value : String
deriving DecidableEq

/-- requests.py lines 12-17: the request body of POST /v1.  postData has
type Dict[str, Any] in the source; the handler only tests its truthiness and
serializes it into the injected script, so an association list of strings is
a faithful model.  Defaults are the declared pydantic defaults. -/
structure LinkRequest where
  url : String
  max_timeout : Option Nat := some 60
  cmd : Option String := some "request.get"
  headers : Option (List (String × String)) := none
  postData : Option (List (String × String)) := none
deriving DecidableEq

/-- requests.py lines 24-30: the Solution envelope. -/
structure Solution where
  url : String
  status : Nat
  cookies : List Cookie
  userAgent : String
  headers : List (String × String)
  response : String
deriving DecidableEq

/-- requests.py lines 32-46: Solution.invalid, an empty Solution with
status 500 used for the invalid-request path. -/
def Solution.invalid (url : String) : Solution :=
  { url := url
    status := 500
    cookies := []
    userAgent := ""
    headers := []
    response := "" }

/-- requests.py lines 49-55: the LinkResponse envelope. -/
structure LinkResponse where
  status : String := "ok"
  message : String
  solution : Solution
  startTimestamp : Nat
  endTimestamp : Nat
  version : String := VERSION
deriving DecidableEq

/-- requests.py line 54: the default of endTimestamp is the expression
int(time.time() * 1000) evaluated ONCE, when the class body runs at module
import.  Every construction of a LinkResponse that omits endTimestamp (as
the success path of read_item does, main.py lines 214-225) therefore
receives the import-time clock value, not the construction-time one. -/
def LinkResponse.endTimestampDefault (importTime : Nat) : Nat := importTime

/-- requests.py lines 57-70: LinkResponse.invalid.  Its startTimestamp and
endTimestamp come from two separate int(time.time() * 1000) calls made at
construction time (lines 68-69); we pass the two clock readings in. -/
def LinkResponse.invalid (url : String) (t1 t2 : Nat) : LinkResponse :=
  { status := "error"
    message := "Invalid request"
    solution := Solution.invalid url
    startTimestamp := t1
    endTimestamp := t2
    version := VERSION }

/-- The value returned by the injected fetch script (main.py lines 138-190).
The Python side reads it with result.get(key, default) (lines 199-201), so
every field is optional. -/
structure ScriptResult where
  status : Option Nat := none
  text : Option String := none
  ok : Option Bool := none
  headers : Option (List (String × String)) := none
deriving DecidableEq

/-- Everything the handler observes through the browser session during one
request.  titleAt i is the title string of the page rendered on detection
cycle i (none when the title tag is absent or has no string, in which case
the Python membership test on line 94 is False).  getCookies is the cookie
jar whenever sb.get_cookies() is called (lines 97 and 115).  finalPageSource
is the render returned by sb.get_page_source() on line 211.  execResult is
the outcome of sb.execute_script on line 194: ok with the script value, or
error with the exception text when the call raises (lines 206-209). -/
structure BrowserEnv where
  titleAt : Nat → Option String
  getCookies : List Cookie
  userAgent : String
  currentUrl : String
  finalPageSource : String
  execResult : Except String ScriptResult

/-- main.py line 94: the detection oracle.  The rendered page is classified
as a challenge exactly when a title string is present and is a member of the
catalog. -/
def isChallenge (catalog : List String) (title : Option String) : Bool :=
  match title with
  | none => false
  | some t => catalog.contains t

/-- Python str.startswith (main.py line 56), stated on the underlying
character lists so that it evaluates by kernel reduction. -/
def pyStartsWith (s pre : String) : Bool :=
  pre.data.isPrefixOf s.data

/-- Python truthiness of an Optional[Dict]: falsy when None or empty
(main.py line 122 tests request.postData this way). -/
def truthyDict : Option (List (String × String)) → Bool
  | none => false
  | some l => !l.isEmpty

/-- Python truthiness of the Optional cookie list on main.py line 114:
falsy when None or the empty list. -/
def truthyCookies : Option (List Cookie) → Bool
  | none => false
  | some l => !l.isEmpty

/-- main.py lines 220-221 and 126: request.headers if request.headers
else an empty mapping.  For some [] Python yields the empty dict, which this
match also returns. -/
def headersOrEmpty : Option (List (String × String)) → List (String × String)
  | none => []
  | some h => h

/-- main.py line 73: the scheme://host origin obtained by joining the first
three slash-separated pieces of the URL; it is only used as the navigation
target of the initial visit, which the abstract browser session performs. -/
def bypassUrl (url : String) : String :=
  String.intercalate "/" ((url.splitOn "/").take 3)

/-- main.py lines 98-99: the value of the cf_clearance cookie, if present.
It is only logged (lines 118-119) and never influences the response. -/
def cf_clearance_of (cookies : List Cookie) : Option String :=
  (cookies.find? fun c => c.name == "cf_clearance").map Cookie.value

/-- main.py line 80. -/
def max_retries : Nat := 3

/-- Result of the detection/solve loop of main.py lines 85-111: the number
of captcha click attempts issued, the cookies captured at break time (none
when the loop exhausted without breaking), and the challenge_detected flag
(set on line 102 and never consulted afterwards). -/
structure LoopResult where
  clicks : Nat
  cloudflare_cookies : Option (List Cookie)
  challenge_detected : Bool
deriving DecidableEq

/-- main.py lines 85-111: for attempt in range(max_retries): fetch the
rendered title; if it is not a catalog member, capture the cookie jar and
break; otherwise set challenge_detected, attempt one captcha click (click
failures are caught on lines 107-108 and have no control effect, so the
click itself is not an input of the model) and sleep before re-checking.
Arguments: attempts remaining, current attempt index, clicks so far,
challenge_detected so far. -/
def solveLoop (catalog : List String) (env : BrowserEnv) :
    Nat → Nat → Nat → Bool → LoopResult
  | 0, _, clicks, detected =>
      { clicks := clicks, cloudflare_cookies := none, challenge_detected := detected }
  | remaining + 1, attempt, clicks, detected =>
      if isChallenge catalog (env.titleAt attempt) then
        solveLoop catalog env remaining (attempt + 1) (clicks + 1) true
      else
        { clicks := clicks
          cloudflare_cookies := some env.getCookies
          challenge_detected := detected }

/-- main.py lines 126-135: the header mapping serialized into the injected
fetch script for the POST replay: the caller headers updated with a Cookie
header joining the captured cookies and the session User-Agent.  These
headers reach only the injected script, whose outcome the embedding
abstracts as BrowserEnv.execResult; they never appear in the final
Solution (line 221 uses request.headers instead). -/
def postRequestHeaders (req : LinkRequest) (cloudflareCookies : List Cookie)
    (userAgent : String) : List (String × String) :=
  headersOrEmpty req.headers ++
    [("Cookie", String.intercalate "; "
        (cloudflareCookies.map fun c => c.name ++ "=" ++ c.value)),
     ("User-Agent", userAgent)]

/-- Outcome at the HTTP boundary: a returned LinkResponse, or a raised
HTTPException with a status code and detail string. -/
inductive HandlerOutcome where
  | ok (resp : LinkResponse)
  | httpError (statusCode : Nat) (detail : String)
deriving DecidableEq

/-- main.py lines 239-250: raises HTTPException(500, "Could not bypass
challenge").  Its docstring says it should be called when the challenge is
not bypassed after clicking the captcha, but no code path of read_item (or
of anything else in the repository) ever invokes it. -/
def raise_captcha_bypass_error : HandlerOutcome :=
  HandlerOutcome.httpError 500 "Could not bypass challenge"

/-- main.py lines 122-212: the replay dispatch.  When cmd is request.post
and postData is truthy, the handler executes the injected fetch script and
reads text/status from its value with defaults (lines 199-200); when the
script call raises, the exception text becomes the body and the status is
500 (lines 206-209).  Otherwise it returns the currently rendered page
source with status 200 (lines 210-212), touching the network no further. -/
def replay (req : LinkRequest) (env : BrowserEnv) : String × Nat :=
  if req.cmd = some "request.post" ∧ truthyDict req.postData = true then
    match env.execResult with
    | Except.ok result => (result.text.getD "", result.status.getD 500)
    | Except.error e => (e, 500)
  else
    (env.finalPageSource, 200)

/-- The handler result plus the trace observables the claims are about.
sessionOpened: whether the SB context manager was entered (main.py line 61).
seedCookies: cookies added to the fresh session before navigation (no
add_cookies call exists in read_item, so this is always empty on every
path).  cacheAfter: the module-level cookies list (main.py line 24) after
the request (read_item never reads or writes it).  screenshots: number of
save_screenshot calls issued (none exist in read_item).  captchaClicks:
number of uc_gui_click_captcha attempts issued by the loop. -/
structure ReadItemResult where
  outcome : HandlerOutcome
  sessionOpened : Bool
  seedCookies : List Cookie
  cacheAfter : List Cookie
  screenshots : Nat
  captchaClicks : Nat
deriving DecidableEq

/-- main.py lines 50-236: the POST /v1 handler.  clock i is the i-th
int(time.time() * 1000) reading in program order: reading 0 on line 53, and
readings 1 and 2 inside LinkResponse.invalid (requests.py lines 68-69) on
the invalid path.  importTime is the reading taken when requests.py was
imported, which is the class-level default of endTimestamp.  The except
branch of lines 227-234 re-raises browser failures as HTTPException(500);
the embedding models the browser primitives as total, so that branch is
unreachable here and every outcome is HandlerOutcome.ok. -/
def read_item (req : LinkRequest) (env : BrowserEnv) (importTime : Nat)
    (clock : Nat → Nat) (cacheBefore : List Cookie) : ReadItemResult :=
  let start_time := clock 0
  if !(pyStartsWith req.url "http://" || pyStartsWith req.url "https://") then
    { outcome := HandlerOutcome.ok (LinkResponse.invalid req.url (clock 1) (clock 2))
      sessionOpened := false
      seedCookies := []
      cacheAfter := cacheBefore
      screenshots := 0
      captchaClicks := 0 }
  else
    let _bypass_url := bypassUrl req.url
    let loop := solveLoop CHALLENGE_TITLES env max_retries 0 0 false
    let cloudflare_cookies :=
      if truthyCookies loop.cloudflare_cookies then loop.cloudflare_cookies.getD []
      else env.getCookies
    let _cf_clearance := cf_clearance_of cloudflare_cookies
    let _script_headers := postRequestHeaders req cloudflare_cookies env.userAgent
    let sourceStatus := replay req env
    { outcome := HandlerOutcome.ok
        { status := "ok"
          message := "Success"
          solution :=
            { url := env.currentUrl
              status := sourceStatus.2
              cookies := []
              userAgent := env.userAgent
              headers := headersOrEmpty req.headers
              response := sourceStatus.1 }
          startTimestamp := start_time
          endTimestamp := LinkResponse.endTimestampDefault importTime
          version := VERSION }
      sessionOpened := true
      seedCookies := []
      cacheAfter := cacheBefore
      screenshots := 0
      captchaClicks := loop.clicks }

/-- main.py line 38: the health-probe request; model_construct(url=...)
fills every other field with its declared default. -/
def healthProbeRequest : LinkRequest :=
  { url := "https://prowlarr.servarr.com/v1/ping" }

/-- Outcome of GET /health: the JSON body with status ok, or a raised
HTTPException. -/
inductive HealthOutcome where
  | ok
  | httpError (statusCode : Nat) (detail : String)
deriving DecidableEq

/-- main.py lines 34-47: GET /health calls read_item on the probe request;
when the resulting solution status is not HTTPStatus.OK (200) it raises
HTTPException(500, "Health check failed"), otherwise it returns the ok
body.  An HTTPException raised by read_item itself would propagate. -/
def health_check (env : BrowserEnv) (importTime : Nat) (clock : Nat → Nat)
    (cacheBefore : List Cookie) : HealthOutcome :=
  match (read_item healthProbeRequest env importTime clock cacheBefore).outcome with
  | HandlerOutcome.httpError s d => HealthOutcome.httpError s d
  | HandlerOutcome.ok resp =>
      if resp.solution.status ≠ 200 then HealthOutcome.httpError 500 "Health check failed"
      else HealthOutcome.ok

/-- The LinkResponse built on the success path (main.py lines 214-225),
as a function of the request, the browser observations and the clocks:
message Success, replay status/body, empty cookie list, the caller headers
echoed back, the line-53 start time, and the import-time endTimestamp
default. -/
def successResponse (req : LinkRequest) (env : BrowserEnv) (importTime : Nat)
    (clock : Nat → Nat) : LinkResponse :=
  { status := "ok"
    message := "Success"
    solution :=
      { url := env.currentUrl
        status := (replay req env).2
        cookies := []
        userAgent := env.userAgent
        headers := headersOrEmpty req.headers
        response := (replay req env).1 }
    startTimestamp := clock 0
    endTimestamp := LinkResponse.endTimestampDefault importTime
    version := VERSION }

/-- Characterization of the detection/solve loop: if the page is a challenge
on exactly the first N observed cycles (counting from the current attempt
index) and clear on the next one when the loop still looks, the loop issues
exactly N click attempts; it breaks with captured cookies exactly when some
budget was left at the clearing cycle. -/
theorem solveLoop_spec (catalog : List String) (env : BrowserEnv) :
    ∀ (r a k : Nat) (d : Bool) (N : Nat), N ≤ r →
      (∀ i, i < N → isChallenge catalog (env.titleAt (a + i)) = true) →
      (N < r → isChallenge catalog (env.titleAt (a + N)) = false) →
      solveLoop catalog env r a k d =
        { clicks := k + N
          cloudflare_cookies := if N < r then some env.getCookies else none
          challenge_detected := d || decide (0 < N) } := by
  intro r
  induction r with
  | zero =>
    intro a k d N hN _hch _hclear
    have hN0 : N = 0 := Nat.le_zero.mp hN
    subst hN0
    simp [solveLoop]
  | succ r ih =>
    intro a k d N hN hch hclear
    cases N with
    | zero =>
      have hc : isChallenge catalog (env.titleAt a) = false := by
        have := hclear (Nat.succ_pos r)
        simpa using this
      simp [solveLoop, hc]
    | succ M =>
      have h0 : isChallenge catalog (env.titleAt a) = true := by
        have := hch 0 (Nat.succ_pos M)
        simpa using this
      have hch2 : ∀ i, i < M → isChallenge catalog (env.titleAt (a + 1 + i)) = true := by
        intro i hi
        have h2 := hch (i + 1) (by omega)
        have he : a + (i + 1) = a + 1 + i := by omega
        rw [he] at h2
        exact h2
      have hclear2 : M < r → isChallenge catalog (env.titleAt (a + 1 + M)) = false := by
        intro hM
        have h2 := hclear (by omega)
        have he : a + (M + 1) = a + 1 + M := by omega
        rw [he] at h2
        exact h2
      rw [show solveLoop catalog env (r + 1) a k d =
            (if isChallenge catalog (env.titleAt a) then
              solveLoop catalog env r (a + 1) (k + 1) true
            else
              { clicks := k
                cloudflare_cookies := some env.getCookies
                challenge_detected := d }) from rfl]
      rw [h0]
      simp only [if_true]
      rw [ih (a + 1) (k + 1) true M (by omega) hch2 hclear2]
      congr 1
      · omega
      · simp [Nat.succ_lt_succ_iff]
      · simp

/-- The loop consults the environment only through titleAt and getCookies,
so it is unchanged when only execResult (or any other field) differs. -/
theorem solveLoop_env_congr (catalog : List String) (env env2 : BrowserEnv)
    (h1 : env2.titleAt = env.titleAt) (h2 : env2.getCookies = env.getCookies) :
    ∀ (r a k : Nat) (d : Bool),
      solveLoop catalog env2 r a k d = solveLoop catalog env r a k d := by
  intro r
  induction r with
  | zero => intro a k d; simp [solveLoop]
  | succ r ih => intro a k d; simp [solveLoop, h1, h2, ih]

/-- Unfolding of read_item on a URL with a valid scheme: a session is
opened but never seeded, the cache is untouched, no screenshot is taken,
the click count is the loop click count, and the returned envelope is the
success response. -/
theorem read_item_valid (req : LinkRequest) (env : BrowserEnv) (importTime : Nat)
    (clock : Nat → Nat) (cacheBefore : List Cookie)
    (hurl : (pyStartsWith req.url "http://" || pyStartsWith req.url "https://") = true) :
    read_item req env importTime clock cacheBefore =
      { outcome := HandlerOutcome.ok (successResponse req env importTime clock)
        sessionOpened := true
        seedCookies := []
        cacheAfter := cacheBefore
        screenshots := 0
        captchaClicks := (solveLoop CHALLENGE_TITLES env max_retries 0 0 false).clicks } := by
  simp [read_item, hurl, successResponse]

/-- Unfolding of read_item on a URL with an invalid scheme: no session, no
seed, untouched cache, no screenshot, no click, the invalid envelope. -/
theorem read_item_invalid (req : LinkRequest) (env : BrowserEnv) (importTime : Nat)
    (clock : Nat → Nat) (cacheBefore : List Cookie)
    (hurl : (pyStartsWith req.url "http://" || pyStartsWith req.url "https://") = false) :
    read_item req env importTime clock cacheBefore =
      { outcome := HandlerOutcome.ok (LinkResponse.invalid req.url (clock 1) (clock 2))
        sessionOpened := false
        seedCookies := []
        cacheAfter := cacheBefore
        screenshots := 0
        captchaClicks := 0 } := by
  simp [read_item, hurl]

/-- A challenge-free browser environment used by concrete witnesses: no
title on any cycle, an empty cookie jar, and a failing replay transport. -/
def env0 : BrowserEnv :=
  { titleAt := fun _ => none
    getCookies := []
    userAgent := "ua"
    currentUrl := "https://example.com/"
    finalPageSource := "<html>content</html>"
    execResult := Except.error "network unreachable" }

/-- A GET request for a protected target, used to probe the exhausted
retry budget. -/
def reqC1 : LinkRequest := { url := "https://protected.example.com/api" }

/-- A browser environment whose rendered page title is a catalog member on
every detection cycle: the challenge never clears. -/
def envC1 : BrowserEnv :=
  { titleAt := fun _ => some "Just a moment..."
    getCookies := [{ name := "foo", value := "bar" }]
    userAgent := "ua"
    currentUrl := "https://protected.example.com/api"
    finalPageSource := "<html><head><title>Just a moment...</title></head></html>"
    execResult := Except.error "" }

/-- C1: the claim says that when the page title stays in the Challenge Title
Catalog until the 3-attempt retry budget is exhausted, the handler fails
with HTTP 500 and message Could not bypass challenge, taking exactly one
diagnostic screenshot.  The code does the opposite: after issuing all 3
click attempts it falls through, takes no screenshot, never invokes
raise_captcha_bypass_error (which main.py defines but never calls), and
returns a Success envelope with status 200 whose body is the interstitial
page source. -/
theorem C1_exhausted_budget_returns_success_not_500 :
    read_item reqC1 envC1 0 (fun _ => 1000) [] =
      { outcome := HandlerOutcome.ok (successResponse reqC1 envC1 0 (fun _ => 1000))
        sessionOpened := true
        seedCookies := []
        cacheAfter := []
        screenshots := 0
        captchaClicks := 3 } ∧
    (successResponse reqC1 envC1 0 (fun _ => 1000)).message = "Success" ∧
    (successResponse reqC1 envC1 0 (fun _ => 1000)).solution.status = 200 ∧
    (successResponse reqC1 envC1 0 (fun _ => 1000)).solution.response =
      envC1.finalPageSource ∧
    (read_item reqC1 envC1 0 (fun _ => 1000) []).outcome ≠ raise_captcha_bypass_error :=
  ⟨rfl, rfl, rfl, rfl, by decide⟩

/-- A valid GET request used to exhibit the endTimestamp defect. -/
def reqC2 : LinkRequest := { url := "https://example.com/" }

/-- C2: the claim says every LinkResponse from POST /v1 has
endTimestamp greater than or equal to startTimestamp.  On the success path the
handler omits endTimestamp, so pydantic supplies the class-level default,
which was computed once at module import (requests.py line 54).  For a
module imported at time 0 and a request handled at time 1000, the response
has endTimestamp 0 strictly below startTimestamp 1000. -/
theorem C2_endTimestamp_below_startTimestamp :
    (read_item reqC2 env0 0 (fun _ => 1000) []).outcome =
      HandlerOutcome.ok (successResponse reqC2 env0 0 (fun _ => 1000)) ∧
    (successResponse reqC2 env0 0 (fun _ => 1000)).endTimestamp <
      (successResponse reqC2 env0 0 (fun _ => 1000)).startTimestamp :=
  ⟨rfl, by decide⟩

/-- A valid GET request for the cookie-cache round-trip analysis. -/
def reqC3 : LinkRequest := { url := "https://example.com/" }

/-- A challenge-free environment whose session ends with a nonempty cookie
jar, so that persisting the jar would change the cache. -/
def envC3 : BrowserEnv :=
  { titleAt := fun _ => none
    getCookies := [{ name := "cf_clearance", value := "tok" }]
    userAgent := "ua"
    currentUrl := "https://example.com/"
    finalPageSource := "<html>content</html>"
    execResult := Except.error "" }

/-- C3 counterexample: a request that completes successfully with a
nonempty session cookie jar leaves the process-wide cache (the module-level
cookies list of main.py line 24) exactly as it found it, so the jar is not
persisted; and the immediately following request opens its browser session
with no seed cookies at all, not with that jar. -/
theorem C3_no_cookie_roundtrip_counterexample :
    (read_item reqC3 envC3 0 (fun _ => 0) []).outcome =
      HandlerOutcome.ok (successResponse reqC3 envC3 0 (fun _ => 0)) ∧
    envC3.getCookies ≠ [] ∧
    (read_item reqC3 envC3 0 (fun _ => 0) []).cacheAfter ≠ envC3.getCookies ∧
    (read_item reqC3 envC3 0 (fun _ => 0)
        ((read_item reqC3 envC3 0 (fun _ => 0) []).cacheAfter)).seedCookies ≠
      envC3.getCookies :=
  ⟨rfl, by decide, by decide, by decide⟩

/-- C3 amended: the handler performs no cookie persistence at all: the
process-wide cache is left unchanged by every request (so the cache read by
the next request trivially equals whatever the previous one left, always the
initial empty list), and no browser session is ever seeded with cookies. -/
theorem C3_cache_never_written_sessions_never_seeded
    (req : LinkRequest) (env : BrowserEnv) (importTime : Nat) (clock : Nat → Nat)
    (cacheBefore : List Cookie) :
    (read_item req env importTime clock cacheBefore).cacheAfter = cacheBefore ∧
    (read_item req env importTime clock cacheBefore).seedCookies = [] := by
  cases hb : (pyStartsWith req.url "http://" || pyStartsWith req.url "https://") with
  | false =>
    rw [read_item_invalid req env importTime clock cacheBefore hb]
    exact ⟨rfl, rfl⟩
  | true =>
    rw [read_item_valid req env importTime clock cacheBefore hb]
    exact ⟨rfl, rfl⟩

/-- C4: a request whose URL starts with neither http:// nor https:// is
answered, without raising and without opening a browser session, by the
invalid envelope: LinkResponse status error, Solution status 500, empty
cookies, empty headers, empty response body. -/
theorem C4_invalid_scheme_invalid_envelope_no_session
    (req : LinkRequest) (env : BrowserEnv) (importTime : Nat) (clock : Nat → Nat)
    (cacheBefore : List Cookie)
    (hurl : (pyStartsWith req.url "http://" || pyStartsWith req.url "https://") = false) :
    read_item req env importTime clock cacheBefore =
      { outcome := HandlerOutcome.ok (LinkResponse.invalid req.url (clock 1) (clock 2))
        sessionOpened := false
        seedCookies := []
        cacheAfter := cacheBefore
        screenshots := 0
        captchaClicks := 0 } ∧
    (LinkResponse.invalid req.url (clock 1) (clock 2)).status = "error" ∧
    (LinkResponse.invalid req.url (clock 1) (clock 2)).solution.status = 500 ∧
    (LinkResponse.invalid req.url (clock 1) (clock 2)).solution.cookies = [] ∧
    (LinkResponse.invalid req.url (clock 1) (clock 2)).solution.headers = [] ∧
    (LinkResponse.invalid req.url (clock 1) (clock 2)).solution.response = "" :=
  ⟨read_item_invalid req env importTime clock cacheBefore hurl, rfl, rfl, rfl, rfl, rfl⟩

/-- C4 witness: the concrete request with URL not-a-url. -/
theorem C4_invalid_scheme_witness :
    read_item { url := "not-a-url" } env0 0 (fun _ => 7) [] =
      { outcome := HandlerOutcome.ok (LinkResponse.invalid "not-a-url" 7 7)
        sessionOpened := false
        seedCookies := []
        cacheAfter := []
        screenshots := 0
        captchaClicks := 0 } ∧
    (LinkResponse.invalid "not-a-url" 7 7).status = "error" ∧
    (LinkResponse.invalid "not-a-url" 7 7).solution.status = 500 ∧
    (LinkResponse.invalid "not-a-url" 7 7).solution.cookies = [] ∧
    (LinkResponse.invalid "not-a-url" 7 7).solution.headers = [] ∧
    (LinkResponse.invalid "not-a-url" 7 7).solution.response = "" :=
  C4_invalid_scheme_invalid_envelope_no_session { url := "not-a-url" } env0 0 (fun _ => 7) []
    (by decide)

/-- C5: with the page title a catalog member on exactly the first N
detection cycles (N at most the 3-attempt budget) and absent on the next
cycle, the solver issues exactly N captcha click attempts and the request is
cleared: when budget was left at the clearing cycle the loop breaks with the
captured cookie jar, and in every case the handler proceeds to the replay
step and returns the Success envelope.  N = 0 is the challenge-free case:
cleared on the first cycle with zero click attempts. -/
theorem C5_exactly_N_clicks_then_cleared
    (req : LinkRequest) (env : BrowserEnv) (importTime : Nat) (clock : Nat → Nat)
    (cacheBefore : List Cookie) (N : Nat)
    (hurl : (pyStartsWith req.url "http://" || pyStartsWith req.url "https://") = true)
    (hN : N ≤ max_retries)
    (hch : ∀ i, i < N → isChallenge CHALLENGE_TITLES (env.titleAt i) = true)
    (hclear : isChallenge CHALLENGE_TITLES (env.titleAt N) = false) :
    (read_item req env importTime clock cacheBefore).captchaClicks = N ∧
    (N < max_retries →
      (solveLoop CHALLENGE_TITLES env max_retries 0 0 false).cloudflare_cookies =
        some env.getCookies) ∧
    (read_item req env importTime clock cacheBefore).outcome =
      HandlerOutcome.ok (successResponse req env importTime clock) := by
  have hspec := solveLoop_spec CHALLENGE_TITLES env max_retries 0 0 false N hN
      (fun i hi => by simpa using hch i hi)
      (fun _ => by simpa using hclear)
  refine ⟨?_, ?_, ?_⟩
  · rw [read_item_valid req env importTime clock cacheBefore hurl]
    simp [hspec]
  · intro hlt
    rw [hspec]
    simp [hlt]
  · rw [read_item_valid req env importTime clock cacheBefore hurl]

/-- A valid GET request used by the C5 witness. -/
def reqC5 : LinkRequest := { url := "https://example.com/" }

/-- An environment challenged on exactly the first cycle and clear from the
second cycle on. -/
def envC5 : BrowserEnv :=
  { titleAt := fun i => if i = 0 then some "Just a moment..." else none
    getCookies := [{ name := "cf_clearance", value := "tok" }]
    userAgent := "ua"
    currentUrl := "https://example.com/"
    finalPageSource := "<html>real content</html>"
    execResult := Except.error "" }

/-- C5 witness: one challenged cycle then clear gives exactly one click. -/
theorem C5_one_challenge_cycle_witness :
    (read_item reqC5 envC5 0 (fun _ => 0) []).captchaClicks = 1 ∧
    (1 < max_retries →
      (solveLoop CHALLENGE_TITLES envC5 max_retries 0 0 false).cloudflare_cookies =
        some envC5.getCookies) ∧
    (read_item reqC5 envC5 0 (fun _ => 0) []).outcome =
      HandlerOutcome.ok (successResponse reqC5 envC5 0 (fun _ => 0)) :=
  C5_exactly_N_clicks_then_cleared reqC5 envC5 0 (fun _ => 0) [] 1 (by decide) (by decide)
    (fun i hi => by
      have hi0 : i = 0 := by omega
      subst hi0
      decide)
    (by decide)

/-- C6: for a POST-intent request (cmd request.post with a truthy body)
whose in-browser replay raises at the transport level, the handler does not
raise: it returns the Success envelope with Solution status 500 and the
error text as the response body. -/
theorem C6_transport_failure_folded_into_solution
    (req : LinkRequest) (env : BrowserEnv) (importTime : Nat) (clock : Nat → Nat)
    (cacheBefore : List Cookie) (errText : String)
    (hurl : (pyStartsWith req.url "http://" || pyStartsWith req.url "https://") = true)
    (hcmd : req.cmd = some "request.post")
    (hbody : truthyDict req.postData = true)
    (herr : env.execResult = Except.error errText) :
    (read_item req env importTime clock cacheBefore).outcome =
      HandlerOutcome.ok (successResponse req env importTime clock) ∧
    (successResponse req env importTime clock).solution.status = 500 ∧
    (successResponse req env importTime clock).solution.response = errText := by
  refine ⟨?_, ?_, ?_⟩
  · rw [read_item_valid req env importTime clock cacheBefore hurl]
  · simp [successResponse, replay, hcmd, hbody, herr]
  · simp [successResponse, replay, hcmd, hbody, herr]

/-- A POST request with a body, used by the C6 witness. -/
def reqC6 : LinkRequest :=
  { url := "https://example.com/api"
    cmd := some "request.post"
    postData := some [("key", "value")] }

/-- A challenge-free environment whose script execution raises. -/
def envC6 : BrowserEnv :=
  { titleAt := fun _ => none
    getCookies := []
    userAgent := "ua"
    currentUrl := "https://example.com/api"
    finalPageSource := "<html></html>"
    execResult := Except.error "TypeError: Failed to fetch" }

/-- C6 witness: the concrete failing POST replay. -/
theorem C6_transport_failure_witness :
    (read_item reqC6 envC6 0 (fun _ => 0) []).outcome =
      HandlerOutcome.ok (successResponse reqC6 envC6 0 (fun _ => 0)) ∧
    (successResponse reqC6 envC6 0 (fun _ => 0)).solution.status = 500 ∧
    (successResponse reqC6 envC6 0 (fun _ => 0)).solution.response =
      "TypeError: Failed to fetch" :=
  C6_transport_failure_folded_into_solution reqC6 envC6 0 (fun _ => 0) []
    "TypeError: Failed to fetch" (by decide) rfl (by decide) rfl

/-- C7: the Solution status always equals the replay outcome, and for a
request that is not a POST-with-body (a simple content fetch), the handler
returns the currently rendered page source with status 200, issuing no
further network call (the else branch of main.py lines 210-212 consults only
the rendered page). -/
theorem C7_render_path_and_status_reflects_replay
    (req : LinkRequest) (env : BrowserEnv) (importTime : Nat) (clock : Nat → Nat)
    (cacheBefore : List Cookie)
    (hurl : (pyStartsWith req.url "http://" || pyStartsWith req.url "https://") = true) :
    (read_item req env importTime clock cacheBefore).outcome =
      HandlerOutcome.ok (successResponse req env importTime clock) ∧
    (successResponse req env importTime clock).solution.status = (replay req env).2 ∧
    (successResponse req env importTime clock).solution.response = (replay req env).1 ∧
    (¬(req.cmd = some "request.post" ∧ truthyDict req.postData = true) →
      (successResponse req env importTime clock).solution.status = 200 ∧
      (successResponse req env importTime clock).solution.response =
        env.finalPageSource) := by
  refine ⟨?_, rfl, rfl, ?_⟩
  · rw [read_item_valid req env importTime clock cacheBefore hurl]
  · intro h
    constructor <;> simp [successResponse, replay, h]

/-- A plain GET request used by the C7 witness. -/
def reqC7 : LinkRequest := { url := "https://news.example.org/" }

/-- C7 witness: the concrete GET request is answered with status 200 and
the rendered page source. -/
theorem C7_render_path_witness :
    (read_item reqC7 env0 0 (fun _ => 0) []).outcome =
      HandlerOutcome.ok (successResponse reqC7 env0 0 (fun _ => 0)) ∧
    (successResponse reqC7 env0 0 (fun _ => 0)).solution.status = 200 ∧
    (successResponse reqC7 env0 0 (fun _ => 0)).solution.response =
      env0.finalPageSource :=
  ⟨(C7_render_path_and_status_reflects_replay reqC7 env0 0 (fun _ => 0) [] (by decide)).1,
   ((C7_render_path_and_status_reflects_replay reqC7 env0 0 (fun _ => 0) []
      (by decide)).2.2.2 (by decide)).1,
   ((C7_render_path_and_status_reflects_replay reqC7 env0 0 (fun _ => 0) []
      (by decide)).2.2.2 (by decide)).2⟩

/-- C8: GET /health pushes a synthetic GET for the fixed probe URL through
the full POST /v1 pipeline; it returns the ok body exactly when the
resulting solution status is 200, and raises HTTPException 500 with detail
Health check failed for any other solution status. -/
theorem C8_health_ok_iff_probe_status_200
    (env : BrowserEnv) (importTime : Nat) (clock : Nat → Nat) (cacheBefore : List Cookie)
    (resp : LinkResponse)
    (hresp : (read_item healthProbeRequest env importTime clock cacheBefore).outcome =
      HandlerOutcome.ok resp) :
    (health_check env importTime clock cacheBefore = HealthOutcome.ok ↔
      resp.solution.status = 200) ∧
    (resp.solution.status ≠ 200 →
      health_check env importTime clock cacheBefore =
        HealthOutcome.httpError 500 "Health check failed") := by
  unfold health_check
  rw [hresp]
  by_cases h : resp.solution.status = 200
  · simp [h]
  · simp [h]

/-- C8 witness: against the challenge-free probe environment the health
check succeeds exactly because the probe solution status is 200. -/
theorem C8_health_witness :
    (health_check env0 0 (fun _ => 0) [] = HealthOutcome.ok ↔
      (successResponse healthProbeRequest env0 0 (fun _ => 0)).solution.status = 200) ∧
    ((successResponse healthProbeRequest env0 0 (fun _ => 0)).solution.status ≠ 200 →
      health_check env0 0 (fun _ => 0) [] =
        HealthOutcome.httpError 500 "Health check failed") :=
  C8_health_ok_iff_probe_status_200 env0 0 (fun _ => 0) []
    (successResponse healthProbeRequest env0 0 (fun _ => 0)) rfl

/-- C9: a request with cmd request.post but falsy postData (None or empty)
takes the plain-render path: rendered page source with status 200, and the
outcome is independent of the replay transport, so the in-browser POST
replay is never issued. -/
theorem C9_post_without_body_takes_render_path
    (req : LinkRequest) (env : BrowserEnv) (importTime : Nat) (clock : Nat → Nat)
    (cacheBefore : List Cookie)
    (hurl : (pyStartsWith req.url "http://" || pyStartsWith req.url "https://") = true)
    (hcmd : req.cmd = some "request.post")
    (hbody : truthyDict req.postData = false) :
    (read_item req env importTime clock cacheBefore).outcome =
      HandlerOutcome.ok (successResponse req env importTime clock) ∧
    (successResponse req env importTime clock).solution.status = 200 ∧
    (successResponse req env importTime clock).solution.response = env.finalPageSource ∧
    ∀ r2 : Except String ScriptResult,
      read_item req { env with execResult := r2 } importTime clock cacheBefore =
        read_item req env importTime clock cacheBefore := by
  have hcond : ¬(req.cmd = some "request.post" ∧ truthyDict req.postData = true) := by
    simp [hbody]
  refine ⟨?_, ?_, ?_, ?_⟩
  · rw [read_item_valid req env importTime clock cacheBefore hurl]
  · simp [successResponse, replay, hcond]
  · simp [successResponse, replay, hcond]
  · intro r2
    rw [read_item_valid req { env with execResult := r2 } importTime clock cacheBefore hurl,
        read_item_valid req env importTime clock cacheBefore hurl]
    rw [solveLoop_env_congr CHALLENGE_TITLES env { env with execResult := r2 } rfl rfl]
    simp [successResponse, replay, hcond]

/-- A POST request with no body, used by the C9 witness. -/
def reqC9 : LinkRequest :=
  { url := "https://example.com/form"
    cmd := some "request.post"
    postData := none }

/-- C9 witness: the concrete body-less POST renders the page instead. -/
theorem C9_post_without_body_witness :
    (read_item reqC9 env0 0 (fun _ => 0) []).outcome =
      HandlerOutcome.ok (successResponse reqC9 env0 0 (fun _ => 0)) ∧
    (successResponse reqC9 env0 0 (fun _ => 0)).solution.status = 200 ∧
    (successResponse reqC9 env0 0 (fun _ => 0)).solution.response =
      env0.finalPageSource ∧
    ∀ r2 : Except String ScriptResult,
      read_item reqC9 { env0 with execResult := r2 } 0 (fun _ => 0) [] =
        read_item reqC9 env0 0 (fun _ => 0) [] :=
  C9_post_without_body_takes_render_path reqC9 env0 0 (fun _ => 0) [] (by decide) rfl rfl

/-- C10: every success-path LinkResponse carries an empty Solution cookie
list and echoes the caller headers (or the empty mapping when none were
given), whatever cookies the browser session collected and whatever headers
the replay observed. -/
theorem C10_success_cookies_empty_headers_echoed
    (req : LinkRequest) (env : BrowserEnv) (importTime : Nat) (clock : Nat → Nat)
    (cacheBefore : List Cookie)
    (hurl : (pyStartsWith req.url "http://" || pyStartsWith req.url "https://") = true) :
    (read_item req env importTime clock cacheBefore).outcome =
      HandlerOutcome.ok (successResponse req env importTime clock) ∧
    (successResponse req env importTime clock).solution.cookies = [] ∧
    (successResponse req env importTime clock).solution.headers =
      headersOrEmpty req.headers :=
  ⟨by rw [read_item_valid req env importTime clock cacheBefore hurl], rfl, rfl⟩

/-- A GET request with caller headers, used by the C10 witness. -/
def reqC10 : LinkRequest :=
  { url := "https://example.com/"
    headers := some [("X-Api-Key", "k")] }

/-- An environment with a nonempty session cookie jar and observed response
headers, to show neither reaches the Solution. -/
def envC10 : BrowserEnv :=
  { titleAt := fun _ => none
    getCookies := [{ name := "cf_clearance", value := "z" }]
    userAgent := "ua"
    currentUrl := "https://example.com/"
    finalPageSource := "<html>x</html>"
    execResult := Except.ok { status := some 204, headers := some [("Server", "cf")] } }

/-- C10 witness: concrete request with headers; the Solution echoes them
and reports no cookies. -/
theorem C10_success_cookies_witness :
    (read_item reqC10 envC10 0 (fun _ => 0) []).outcome =
      HandlerOutcome.ok (successResponse reqC10 envC10 0 (fun _ => 0)) ∧
    (successResponse reqC10 envC10 0 (fun _ => 0)).solution.cookies = [] ∧
    (successResponse reqC10 envC10 0 (fun _ => 0)).solution.headers =
      headersOrEmpty reqC10.headers :=
  C10_success_cookies_empty_headers_echoed reqC10 envC10 0 (fun _ => 0) [] (by decide)

end Byparr
